import Mathlib

set_option maxRecDepth 8192

/-!
Verification development for the ETH-Sim price-feed simulators.

The C++ sources are shallowly embedded here:
- prices (C++ `double`) are modelled as exact rationals `ℚ`; the
  transcendental double functions `std::exp`, `std::sqrt` and the draw of a
  standard-normal sample from `std::normal_distribution` are abstracted as
  explicit function parameters (`fexp`, `fsqrt`, `sample`), since their
  bit-level floating-point behaviour is outside the embedding;
- `std::mt19937_64` state is modelled concretely for seeding
  (`mt19937_64_seed`); the distribution draws consume the generator through
  abstract parameter functions (`u01` for `uniform_real_distribution(0,1)`,
  `uint` for `uniform_int_distribution(min,max)`), because the concrete
  draw algorithms are implementation-defined in the C++ standard;
- monotonic and wall-clock instants are modelled as natural numbers of
  milliseconds, supplied as per-iteration inputs `(now, ts)` to the ticker
  step functions (the ticker reads both clocks once per loop iteration);
- the ticker loops `run_price_ticker` of the two simulators are embedded as
  one-iteration step functions (`dex_step`, `oracle_step`) plus list-driven
  runs (`dex_run`, `oracle_run`); each step returns the successor state, the
  generated tick, and the list of frames handed to `broadcast_price`.
-/

/-- `sim_core::SourceKind` from include/sim_core/types.hpp. -/
inductive SourceKind where
  | Dex : SourceKind
  | Chainlink : SourceKind
deriving DecidableEq, Repr

/-- `sim_core::PriceMsg` from include/sim_core/types.hpp.
`ts`, `src_seq` are `uint64_t`, `delay_ms` is `uint32_t` (modelled as `Nat`,
the program never wraps them); `price` is a `double`, modelled as `ℚ`. -/
structure PriceMsg where
  ts : Nat
  pair : String
  price : ℚ
  source : SourceKind
  src_seq : Nat
  delay_ms : Nat
  stale : Bool
deriving DecidableEq, Repr

/-- `sim_core::Metrics` from include/sim_core/metrics.hpp: four monotone
`uint64_t` counters. -/
structure Metrics where
  price_ticks_generated : Nat
  ws_frames_sent : Nat
  ws_frames_dropped : Nat
  ws_frames_duplicated : Nat
deriving DecidableEq, Repr

/-- `Metrics::to_prometheus` from include/sim_core/metrics.hpp. -/
def Metrics.to_prometheus (m : Metrics) : String :=
  "# HELP price_ticks_generated Total price ticks generated\n"
    ++ "# TYPE price_ticks_generated counter\n"
    ++ "price_ticks_generated " ++ toString m.price_ticks_generated ++ "\n\n"
    ++ "# HELP ws_frames_sent Total WebSocket frames sent\n"
    ++ "# TYPE ws_frames_sent counter\n"
    ++ "ws_frames_sent " ++ toString m.ws_frames_sent ++ "\n\n"
    ++ "# HELP ws_frames_dropped Total WebSocket frames dropped\n"
    ++ "# TYPE ws_frames_dropped counter\n"
    ++ "ws_frames_dropped " ++ toString m.ws_frames_dropped ++ "\n\n"
    ++ "# HELP ws_frames_duplicated Total WebSocket frames duplicated\n"
    ++ "# TYPE ws_frames_duplicated counter\n"
    ++ "ws_frames_duplicated " ++ toString m.ws_frames_duplicated ++ "\n\n"

/-- State of `std::mt19937_64`: 312 words of 64 bits plus the draw index. -/
structure MT19937_64State where
  mt : List Nat
  mti : Nat
deriving DecidableEq, Repr

/-- One step of the `std::mt19937_64` seeding recurrence:
`mt[i] = 6364136223846793005 * (mt[i-1] xor (mt[i-1] >> 62)) + i` mod 2^64. -/
def mtSeedNext (prev i : Nat) : Nat :=
  (6364136223846793005 * (prev ^^^ (prev >>> 62)) + i) % 2 ^ 64

/-- Tail of the seeded state array: `n` further words after word `i - 1 = prev`. -/
def mtSeedFrom (prev i : Nat) : Nat → List Nat
  | 0 => []
  | n + 1 =>
    let cur := mtSeedNext prev i
    cur :: mtSeedFrom cur (i + 1) n

/-- Construction `std::mt19937_64(final_seed)`: the standard seeding of the
64-bit Mersenne Twister state from a single 64-bit seed. -/
def mt19937_64_seed (seed : Nat) : MT19937_64State :=
  let s0 := seed % 2 ^ 64
  ⟨s0 :: mtSeedFrom s0 1 311, 312⟩

/-- `sim_core::create_labeled_rng` from include/sim_core/rng.hpp.
`std::hash<std::string>` is implementation-defined, hence passed in as the
stable deterministic hash `hash64` (the spec allows any such hash); the
derived seed is `seed XOR hash64(label)`, fed to `std::mt19937_64`. -/
def create_labeled_rng (hash64 : String → Nat) (seed : Nat) (label : String) :
    MT19937_64State :=
  let label_hash := hash64 label % 2 ^ 64
  let final_seed := (seed % 2 ^ 64) ^^^ label_hash
  mt19937_64_seed final_seed

/-- `sim_core::happens` from include/sim_core/rng.hpp, generic over the
generator state `R`.  `u01` abstracts one draw of
`std::uniform_real_distribution<double>(0.0, 1.0)`. -/
def happens {R : Type} (u01 : R → ℚ × R) (rng : R) (probability : ℚ) :
    Bool × R :=
  if probability ≤ 0 then (false, rng)
  else if 1 ≤ probability then (true, rng)
  else
    let d := u01 rng
    (decide (d.1 < probability), d.2)

/-- `sim_core::sample_range` from include/sim_core/rng.hpp, generic over the
generator state `R`.  `uint` abstracts one draw of
`std::uniform_int_distribution<uint64_t>(min, max)`. -/
def sample_range {R : Type} (uint : Nat → Nat → R → Nat × R) (rng : R)
    (min max : Nat) : Nat × R :=
  if min ≥ max then (min, rng)
  else uint min max rng

/-- C++ `std::max(a, b)` on doubles: `(a < b) ? b : a`.  On the rational
embedding this agrees with `max` (`cppMax_eq_max` below); it is spelled out
so that the kernel can evaluate it on concrete inputs. -/
def cppMax (a b : ℚ) : ℚ :=
  if a < b then b else a

/-- C++ `std::abs` on doubles, spelled out for kernel evaluation; agrees
with `abs` on the rational embedding (`cppAbs_eq_abs` below). -/
def cppAbs (q : ℚ) : ℚ :=
  if q < 0 then -q else q

/-- C++ `std::min(a, b)` on `uint64_t`: `(b < a) ? b : a`. -/
def cppMinNat (a b : Nat) : Nat :=
  if b < a then b else a

/-- C++ `std::max(a, b)` on `uint64_t`: `(a < b) ? b : a`. -/
def cppMaxNat (a b : Nat) : Nat :=
  if a < b then b else a

/-- `sim_core::GbmPriceEngine` private state from
include/sim_core/gbm_engine.hpp, generic over the PRNG state `R`. -/
structure GbmPriceEngine (R : Type) where
  pair : String
  price : ℚ
  drift : ℚ
  volatility : ℚ
  tick_interval_ms : Nat
  rng : R

/-- `GbmPriceEngine::next_tick` from include/sim_core/gbm_engine.hpp.
`sample` abstracts one draw of `normal_(rng_)` (standard normal, advancing
the engine's private PRNG); `fsqrt` and `fexp` abstract `std::sqrt` and
`std::exp` on doubles.  `365.25` is the exact rational `1461/4`. -/
def GbmPriceEngine.next_tick {R : Type} (sample : R → ℚ × R)
    (fsqrt fexp : ℚ → ℚ) (e : GbmPriceEngine R) (ts seq : Nat)
    (source : SourceKind) (delay_ms : Nat) (stale : Bool) :
    PriceMsg × GbmPriceEngine R :=
  let dt : ℚ := (e.tick_interval_ms : ℚ) / 1000 / 86400 / (1461 / 4)
  let d := sample e.rng
  let dw := d.1 * fsqrt dt
  let drift_component := e.drift * dt
  let diffusion_component := e.volatility * dw
  let relative_change := drift_component + diffusion_component
  let price1 := e.price * fexp relative_change
  let price2 := cppMax price1 (1 / 100)
  (⟨ts, e.pair, price2, source, seq, delay_ms, stale⟩,
   { e with price := price2, rng := d.2 })

/-- One call of the engine's `next_tick` capability: the arguments the
caller supplies. -/
structure GbmCall where
  ts : Nat
  seq : Nat
  source : SourceKind
  delay_ms : Nat
  stale : Bool
deriving DecidableEq, Repr

/-- Drive a GBM engine through a list of `next_tick` calls, collecting the
returned ticks. -/
def gbmTrace {R : Type} (sample : R → ℚ × R) (fsqrt fexp : ℚ → ℚ)
    (e : GbmPriceEngine R) : List GbmCall → List PriceMsg
  | [] => []
  | c :: rest =>
    let r := e.next_tick sample fsqrt fexp c.ts c.seq c.source c.delay_ms c.stale
    r.1 :: gbmTrace sample fsqrt fexp r.2 rest

/-- Modelled from the spec (section 4.2, steps 1 to 5): the next price is
`max(price * exp(mu * dt + sigma * z * sqrt(dt)), 0.01)` with
`dt = tick_interval_ms / 1000 / 86400 / 365.25`.  Stated with the same
abstract `fsqrt`/`fexp` as the source embedding, for comparison with
`GbmPriceEngine.next_tick`. -/
def specNextPrice (fsqrt fexp : ℚ → ℚ) (price mu sigma : ℚ)
    (tick_interval_ms : Nat) (z : ℚ) : ℚ :=
  let dt : ℚ := (tick_interval_ms : ℚ) / 1000 / 86400 / (1461 / 4)
  max (price * fexp (mu * dt + sigma * z * fsqrt dt)) (1 / 100)

/-- The Oracle-specific configuration fields consumed by
`run_price_ticker` and `OracleState` in src/oracle_sim/main.cpp
(`sim_core::OracleConfig`, include/sim_core/config.hpp). -/
structure OracleCfg where
  oracle_tick_ms_min : Nat
  oracle_tick_ms_max : Nat
  oracle_deviation_bps : Nat
  oracle_heartbeat_ms : Nat
  oracle_ws_jitter_min : Nat
  oracle_ws_jitter_max : Nat
  oracle_p_drop : ℚ
  oracle_p_dup : ℚ
  oracle_stale_after_ms : Nat
deriving DecidableEq, Repr

/-- The DEX-specific configuration fields consumed by `run_price_ticker`
in src/dex_sim/main.cpp (`sim_core::DexConfig`, include/sim_core/config.hpp). -/
structure DexCfg where
  dex_tick_ms_min : Nat
  dex_tick_ms_max : Nat
  dex_latency_ms_min : Nat
  dex_latency_ms_max : Nat
  dex_p_drop : ℚ
  dex_p_dup : ℚ
  dex_burst_mode : Bool
  dex_burst_on_ms : Nat
  dex_burst_off_ms : Nat
  dex_stale_after_ms : Nat
deriving DecidableEq, Repr

/-- The publication state of `OracleState` in src/oracle_sim/main.cpp:
`last_published_price_` and `last_publish_time_` (monotonic instant,
modelled as milliseconds). -/
structure OraclePubState where
  last_published_price : Option ℚ
  last_publish_time : Option Nat
deriving DecidableEq, Repr

/-- The deviation in basis points computed inside `OracleState::should_publish`:
`abs((current - last) / last) * 10000`, then `static_cast<uint32_t>`, which
truncates the non-negative double toward zero (floor).  The cast is undefined
for values at or above 2^32; the embedding keeps the untruncated natural. -/
def deviationBps (current_price last_price : ℚ) : Nat :=
  let deviation : ℚ := cppAbs ((current_price - last_price) / last_price)
  (deviation * 10000).floor.toNat

/-- `OracleState::should_publish` from src/oracle_sim/main.cpp. -/
def should_publish (cfg : OracleCfg) (st : OraclePubState) (current_price : ℚ)
    (now : Nat) : Bool :=
  match st.last_published_price with
  | none => true
  | some last_price =>
    if deviationBps current_price last_price ≥ cfg.oracle_deviation_bps then
      true
    else
      match st.last_publish_time with
      | none => false
      | some t => decide (now - t ≥ cfg.oracle_heartbeat_ms)

/-- `OracleState::mark_published` from src/oracle_sim/main.cpp. -/
def mark_published (price : ℚ) (now : Nat) : OraclePubState :=
  ⟨some price, some now⟩

/-- The state mutated by one iteration of the Oracle `run_price_ticker` loop
(src/oracle_sim/main.cpp): its ticker PRNG and locals `seq`,
`last_tick_time`, plus the `OracleState` fields it touches (engine,
publication state, snapshot `last_price_`) and the global metrics. -/
structure OracleSimState (R : Type) where
  rng : R
  seq : Nat
  last_tick_time : Nat
  engine : GbmPriceEngine R
  pub : OraclePubState
  metrics : Metrics
  last_price : Option PriceMsg

/-- One iteration of the Oracle `run_price_ticker` loop
(src/oracle_sim/main.cpp, lines 154 to 214).  `now` is the monotonic
instant read after the inter-tick sleep, `ts` the wall clock in
milliseconds.  Returns the successor state, the generated tick, and the
frames passed to `broadcast_price` (empty when the gate rejects or the
drop decision fires, two copies on a duplicate). -/
def oracle_step {R : Type} (u01 : R → ℚ × R) (uint : Nat → Nat → R → Nat × R)
    (sample : R → ℚ × R) (fsqrt fexp : ℚ → ℚ) (cfg : OracleCfg)
    (st : OracleSimState R) (now ts : Nat) :
    OracleSimState R × PriceMsg × List PriceMsg :=
  let rTick := sample_range uint st.rng cfg.oracle_tick_ms_min cfg.oracle_tick_ms_max
  let rDelay := sample_range uint rTick.2 cfg.oracle_ws_jitter_min cfg.oracle_ws_jitter_max
  let delay_ms := rDelay.1
  let stale := decide (now - st.last_tick_time > cfg.oracle_stale_after_ms)
  let gen := st.engine.next_tick sample fsqrt fexp ts st.seq SourceKind.Chainlink delay_ms stale
  let msg := gen.1
  let should_pub := should_publish cfg st.pub msg.price now
  if should_pub = false then
    ({ st with rng := rDelay.2, engine := gen.2, last_tick_time := now }, msg, [])
  else
    let m1 := { st.metrics with price_ticks_generated := st.metrics.price_ticks_generated + 1 }
    let rDrop := happens u01 rDelay.2 cfg.oracle_p_drop
    if rDrop.1 then
      ({ st with
          rng := rDrop.2
          engine := gen.2
          metrics := { m1 with ws_frames_dropped := m1.ws_frames_dropped + 1 }
          pub := mark_published msg.price now
          seq := st.seq + 1
          last_tick_time := now }, msg, [])
    else
      let rDup := happens u01 rDrop.2 cfg.oracle_p_dup
      if rDup.1 then
        ({ st with
            rng := rDup.2
            engine := gen.2
            metrics := { m1 with
              ws_frames_sent := m1.ws_frames_sent + 1
              ws_frames_duplicated := m1.ws_frames_duplicated + 1 }
            pub := mark_published msg.price now
            last_price := some msg
            seq := st.seq + 1
            last_tick_time := now }, msg, [msg, msg])
      else
        ({ st with
            rng := rDup.2
            engine := gen.2
            metrics := { m1 with ws_frames_sent := m1.ws_frames_sent + 1 }
            pub := mark_published msg.price now
            last_price := some msg
            seq := st.seq + 1
            last_tick_time := now }, msg, [msg])

/-- Iterate `oracle_step` over a list of `(now, ts)` clock readings,
collecting the generated ticks and the broadcast frames in order. -/
def oracle_run {R : Type} (u01 : R → ℚ × R) (uint : Nat → Nat → R → Nat × R)
    (sample : R → ℚ × R) (fsqrt fexp : ℚ → ℚ) (cfg : OracleCfg) :
    OracleSimState R → List (Nat × Nat) →
    OracleSimState R × List PriceMsg × List PriceMsg
  | st, [] => (st, [], [])
  | st, c :: rest =>
    let s := oracle_step u01 uint sample fsqrt fexp cfg st c.1 c.2
    let r := oracle_run u01 uint sample fsqrt fexp cfg s.1 rest
    (r.1, s.2.1 :: r.2.1, s.2.2 ++ r.2.2)

/-- The state mutated by one iteration of the DEX `run_price_ticker` loop
(src/dex_sim/main.cpp). -/
structure DexSimState (R : Type) where
  rng : R
  seq : Nat
  last_tick_time : Nat
  engine : GbmPriceEngine R
  metrics : Metrics
  last_price : Option PriceMsg

/-- One iteration of the DEX `run_price_ticker` loop
(src/dex_sim/main.cpp, lines 99 to 147), in the same shape as
`oracle_step`.  The burst-mode coin is `happens(rng, 0.5)`. -/
def dex_step {R : Type} (u01 : R → ℚ × R) (uint : Nat → Nat → R → Nat × R)
    (sample : R → ℚ × R) (fsqrt fexp : ℚ → ℚ) (cfg : DexCfg)
    (st : DexSimState R) (now ts : Nat) :
    DexSimState R × PriceMsg × List PriceMsg :=
  let rTick := sample_range uint st.rng cfg.dex_tick_ms_min cfg.dex_tick_ms_max
  let rBurst :=
    if cfg.dex_burst_mode then
      let coin := happens u01 rTick.2 (1 / 2)
      (if coin.1 then cppMinNat rTick.1 cfg.dex_burst_on_ms
       else cppMaxNat rTick.1 cfg.dex_burst_off_ms, coin.2)
    else rTick
  let rDelay := sample_range uint rBurst.2 cfg.dex_latency_ms_min cfg.dex_latency_ms_max
  let delay_ms := rDelay.1
  let stale := decide (now - st.last_tick_time > cfg.dex_stale_after_ms)
  let gen := st.engine.next_tick sample fsqrt fexp ts st.seq SourceKind.Dex delay_ms stale
  let msg := gen.1
  let m1 := { st.metrics with price_ticks_generated := st.metrics.price_ticks_generated + 1 }
  let rDrop := happens u01 rDelay.2 cfg.dex_p_drop
  if rDrop.1 then
    ({ st with
        rng := rDrop.2
        engine := gen.2
        metrics := { m1 with ws_frames_dropped := m1.ws_frames_dropped + 1 }
        seq := st.seq + 1
        last_tick_time := now }, msg, [])
  else
    let rDup := happens u01 rDrop.2 cfg.dex_p_dup
    if rDup.1 then
      ({ st with
          rng := rDup.2
          engine := gen.2
          metrics := { m1 with
            ws_frames_sent := m1.ws_frames_sent + 1
            ws_frames_duplicated := m1.ws_frames_duplicated + 1 }
          last_price := some msg
          seq := st.seq + 1
          last_tick_time := now }, msg, [msg, msg])
    else
      ({ st with
          rng := rDup.2
          engine := gen.2
          metrics := { m1 with ws_frames_sent := m1.ws_frames_sent + 1 }
          last_price := some msg
          seq := st.seq + 1
          last_tick_time := now }, msg, [msg])

/-- Iterate `dex_step` over a list of `(now, ts)` clock readings. -/
def dex_run {R : Type} (u01 : R → ℚ × R) (uint : Nat → Nat → R → Nat × R)
    (sample : R → ℚ × R) (fsqrt fexp : ℚ → ℚ) (cfg : DexCfg) :
    DexSimState R → List (Nat × Nat) →
    DexSimState R × List PriceMsg × List PriceMsg
  | st, [] => (st, [], [])
  | st, c :: rest =>
    let s := dex_step u01 uint sample fsqrt fexp cfg st c.1 c.2
    let r := dex_run u01 uint sample fsqrt fexp cfg s.1 rest
    (r.1, s.2.1 :: r.2.1, s.2.2 ++ r.2.2)

/-- The observable shape of a `boost::beast` HTTP response as built by
`handle_http_request` in both simulators: status code, `Content-Type`
header, whether `Access-Control-Allow-Origin: *` was set, and the body. -/
structure HttpResponse where
  status : Nat
  content_type : String
  cors : Bool
  body : String
deriving DecidableEq, Repr

/-- The `not_found` lambda shared by both `handle_http_request` functions:
status 404, `text/plain`, body `"Not found: " + target`.  It does not set
the `Access-Control-Allow-Origin` header. -/
def not_found_resp (target : String) : HttpResponse :=
  ⟨404, "text/plain", false, "Not found: " ++ target⟩

/-- The `ok_text` lambda of both `handle_http_request` functions. -/
def ok_text_resp (text : String) : HttpResponse :=
  ⟨200, "text/plain", true, text⟩

/-- The `ok_json` lambda of both `handle_http_request` functions. -/
def ok_json_resp (json : String) : HttpResponse :=
  ⟨200, "application/json", true, json⟩

/-- The `ok_html` lambda of the DEX `handle_http_request`. -/
def ok_html_resp (html : String) : HttpResponse :=
  ⟨200, "text/html", true, html⟩

/-- `handle_http_request` from src/oracle_sim/main.cpp.  `dump` abstracts
`nlohmann::json(snapshot).dump()` applied to the snapshot built from the
current `last_price_` and `current_time_ms()`. -/
def oracle_handle_http_request (dump : Option PriceMsg → Nat → String)
    (metrics : Metrics) (last_price : Option PriceMsg) (now_ms : Nat)
    (target : String) : HttpResponse :=
  if target = "/healthz" then ok_text_resp "OK"
  else if target = "/metrics" then ok_text_resp metrics.to_prometheus
  else if target = "/oracle/snapshot" then ok_json_resp (dump last_price now_ms)
  else not_found_resp target

/-- `handle_http_request` from src/dex_sim/main.cpp.  `static_files`
abstracts the filesystem behind `load_static_file` (`none` is a missing
file, in which case the source falls through to `not_found`). -/
def dex_handle_http_request (dump : Option PriceMsg → Nat → String)
    (static_files : String → Option String) (metrics : Metrics)
    (last_price : Option PriceMsg) (now_ms : Nat) (target : String) :
    HttpResponse :=
  if target = "/healthz" then ok_text_resp "OK"
  else if target = "/metrics" then ok_text_resp metrics.to_prometheus
  else if target = "/prices/snapshot" then ok_json_resp (dump last_price now_ms)
  else
    let staticResult :=
      if target = "/" || target = "/index.html" then static_files "index.html"
      else if target = "/dual.html" then static_files "dual.html"
      else if target = "/debug.html" then static_files "debug.html"
      else none
    match staticResult with
    | some content => ok_html_resp content
    | none => not_found_resp target

/-- Trivial generator instance used to evaluate the step functions at
concrete inputs: the `uniform_real` draw always yields one half. -/
def u01U : Unit → ℚ × Unit := fun _ => (1 / 2, ())

/-- Trivial `uniform_int` draw for concrete evaluation: yields `min`. -/
def uintU : Nat → Nat → Unit → Nat × Unit := fun lo _ _ => (lo, ())

/-- Trivial standard-normal draw for concrete evaluation: yields zero. -/
def sampleU : Unit → ℚ × Unit := fun _ => (0, ())

/-- Trivial `sqrt` stand-in for concrete evaluation. -/
def fsqrtU : ℚ → ℚ := fun _ => 0

/-- Trivial `exp` stand-in for concrete evaluation: constantly one, so the
engine price is unchanged by a tick. -/
def fexpU : ℚ → ℚ := fun _ => 1

/-- Concrete GBM engine over the trivial generator, for witnesses. -/
def engineU : GbmPriceEngine Unit := ⟨"ETH/USD", 100, 0, 2, 50, ()⟩

/-- Sample function on the concrete Mersenne state that draws zero and
leaves the state unchanged, for witnesses. -/
def sampleMT : MT19937_64State → ℚ × MT19937_64State := fun st => (0, st)

theorem cppMax_eq_max (a b : ℚ) : cppMax a b = max a b := by
  unfold cppMax
  rcases lt_or_le a b with h | h
  · rw [if_pos h, max_eq_right h.le]
  · rw [if_neg (not_lt.mpr h), max_eq_left h]

theorem cppAbs_eq_abs (q : ℚ) : cppAbs q = |q| := by
  unfold cppAbs
  rcases lt_or_le q 0 with h | h
  · rw [if_pos h, abs_of_neg h]
  · rw [if_neg (not_lt.mpr h), abs_of_nonneg h]

theorem le_cppMax_right (a b : ℚ) : b ≤ cppMax a b := by
  unfold cppMax
  split
  · exact le_refl b
  · exact le_of_not_lt (by assumption)

/-- C10: `happens` with `p ≤ 0` returns `false` and with `p ≥ 1` returns
`true`, in both cases without drawing from the generator (the state is
returned unchanged); `sample_range` with `min ≥ max` returns `min` without
drawing, so for `min > max` the result lies outside the empty interval
`[min, max]`: no randomness is consumed at these degenerate decision
points. -/
theorem rng_degenerate_params {R : Type} (u01 : R → ℚ × R)
    (uint : Nat → Nat → R → Nat × R) (rng : R) (p : ℚ) (lo hi : Nat) :
    (p ≤ 0 → happens u01 rng p = (false, rng)) ∧
    (1 ≤ p → happens u01 rng p = (true, rng)) ∧
    (lo ≥ hi → sample_range uint rng lo hi = (lo, rng)) ∧
    (lo > hi → ¬ ((sample_range uint rng lo hi).1 ≤ hi)) := by
  refine ⟨?_, ?_, ?_, ?_⟩
  · intro h
    simp [happens, h]
  · intro h
    have h0 : ¬ p ≤ 0 := by linarith
    simp [happens, h0, h]
  · intro h
    simp [sample_range, h]
  · intro h
    have hr : sample_range uint rng lo hi = (lo, rng) := by
      simp [sample_range, Nat.le_of_lt h]
    rw [hr]
    omega

/-- Witness for C10 at concrete inputs. -/
theorem rng_degenerate_params_witness :
    happens u01U () 0 = (false, ()) ∧ happens u01U () 1 = (true, ()) ∧
    sample_range uintU () 5 5 = (5, ()) ∧
    ¬ ((sample_range uintU () 7 3).1 ≤ 3) :=
  ⟨(rng_degenerate_params u01U uintU () 0 5 5).1 (le_refl 0),
   (rng_degenerate_params u01U uintU () 1 5 5).2.1 (le_refl 1),
   (rng_degenerate_params u01U uintU () 0 5 5).2.2.1 (le_refl 5),
   (rng_degenerate_params u01U uintU () 0 7 3).2.2.2 (by decide)⟩

/-- C2: two GBM engines constructed from the labelled stream derived for
the same master seed and label (seed XOR hash64(label), seeded into the
64-bit Mersenne-Twister state) and driven with identical call sequences
produce identical price sequences.  The embedding is a pure function of
the seed, label and call list, so the trace cannot depend on the run or
the machine; the double-precision sampling pipeline is abstracted by
`sample`/`fsqrt`/`fexp`, fixed across the two runs as the same compiled
code is. -/
theorem labeled_rng_determinism (hash64 : String → Nat)
    (sample : MT19937_64State → ℚ × MT19937_64State) (fsqrt fexp : ℚ → ℚ)
    (pair : String) (price_start drift volatility : ℚ)
    (tick_interval_ms : Nat) (S1 S2 : Nat) (L1 L2 : String)
    (calls : List GbmCall) (hS : S1 = S2) (hL : L1 = L2) :
    gbmTrace sample fsqrt fexp
      ⟨pair, price_start, drift, volatility, tick_interval_ms,
        create_labeled_rng hash64 S1 L1⟩ calls =
    gbmTrace sample fsqrt fexp
      ⟨pair, price_start, drift, volatility, tick_interval_ms,
        create_labeled_rng hash64 S2 L2⟩ calls := by
  subst hS
  subst hL
  rfl

/-- Witness for C2: seed 42 and label DEX on both sides. -/
theorem labeled_rng_determinism_witness :
    (42 : Nat) = 42 ∧ "DEX" = "DEX" ∧
    gbmTrace sampleMT fsqrtU fexpU
      ⟨"ETH/USD", 3500, 0, 2, 1000, create_labeled_rng String.length 42 "DEX"⟩
      [⟨1000, 0, SourceKind.Dex, 0, false⟩] =
    gbmTrace sampleMT fsqrtU fexpU
      ⟨"ETH/USD", 3500, 0, 2, 1000, create_labeled_rng String.length 42 "DEX"⟩
      [⟨1000, 0, SourceKind.Dex, 0, false⟩] :=
  ⟨rfl, rfl,
   labeled_rng_determinism String.length sampleMT fsqrtU fexpU "ETH/USD" 3500 0 2
     1000 42 42 "DEX" "DEX" [⟨1000, 0, SourceKind.Dex, 0, false⟩] rfl rfl⟩

/-- C3: `next_tick` returns exactly the tick whose price is
`max(old_price * exp(mu * dt + sigma * z * sqrt(dt)), 0.01)` with
`dt = tick_interval_ms / 1000 / 86400 / 365.25` and `z` the single
standard-normal draw from the engine's private PRNG, carrying the given
`ts`, pair, source, `seq`, `delay_ms` and `stale` unchanged; the engine
keeps the new price and the advanced PRNG state. -/
theorem gbm_next_tick_matches_spec {R : Type} (sample : R → ℚ × R)
    (fsqrt fexp : ℚ → ℚ) (e : GbmPriceEngine R) (ts seq : Nat)
    (source : SourceKind) (delay_ms : Nat) (stale : Bool) :
    e.next_tick sample fsqrt fexp ts seq source delay_ms stale =
      (⟨ts, e.pair,
        specNextPrice fsqrt fexp e.price e.drift e.volatility
          e.tick_interval_ms (sample e.rng).1,
        source, seq, delay_ms, stale⟩,
       { e with
          price := specNextPrice fsqrt fexp e.price e.drift e.volatility
            e.tick_interval_ms (sample e.rng).1
          rng := (sample e.rng).2 }) := by
  simp only [GbmPriceEngine.next_tick, specNextPrice, cppMax_eq_max, mul_assoc]

/-- C4: every tick returned by `next_tick` has price at least 0.01 (hence
positive), for every engine state, inputs and sampling functions; and so
does every tick of any trace driven through the engine. -/
theorem gbm_price_floor {R : Type} (sample : R → ℚ × R) (fsqrt fexp : ℚ → ℚ)
    (e : GbmPriceEngine R) (ts seq : Nat) (source : SourceKind)
    (delay_ms : Nat) (stale : Bool) (calls : List GbmCall) :
    ((1 : ℚ) / 100 ≤
        (e.next_tick sample fsqrt fexp ts seq source delay_ms stale).1.price ∧
      0 < (e.next_tick sample fsqrt fexp ts seq source delay_ms stale).1.price) ∧
    ∀ msg ∈ gbmTrace sample fsqrt fexp e calls,
      (1 : ℚ) / 100 ≤ msg.price ∧ 0 < msg.price := by
  have hstep : ∀ (e' : GbmPriceEngine R) (ts' seq' : Nat) (source' : SourceKind)
      (delay' : Nat) (stale' : Bool),
      (1 : ℚ) / 100 ≤
        (e'.next_tick sample fsqrt fexp ts' seq' source' delay' stale').1.price := by
    intro e' ts' seq' source' delay' stale'
    simp only [GbmPriceEngine.next_tick]
    exact le_cppMax_right _ _
  have hpos : ∀ x : ℚ, (1 : ℚ) / 100 ≤ x → 0 < x := fun x hx =>
    lt_of_lt_of_le (by norm_num) hx
  refine ⟨⟨hstep e ts seq source delay_ms stale,
    hpos _ (hstep e ts seq source delay_ms stale)⟩, ?_⟩
  induction calls generalizing e with
  | nil =>
    intro msg hmsg
    simp [gbmTrace] at hmsg
  | cons c rest ih =>
    intro msg hmsg
    simp only [gbmTrace, List.mem_cons] at hmsg
    rcases hmsg with h | h
    · subst h
      exact ⟨hstep e c.ts c.seq c.source c.delay_ms c.stale,
        hpos _ (hstep e c.ts c.seq c.source c.delay_ms c.stale)⟩
    · exact ih _ msg h

/-- Witness for C4: the single tick of a concrete trace. -/
theorem gbm_price_floor_witness :
    (⟨1000, "ETH/USD", 100, SourceKind.Dex, 0, 0, false⟩ : PriceMsg) ∈
      gbmTrace sampleU fsqrtU fexpU engineU [⟨1000, 0, SourceKind.Dex, 0, false⟩] ∧
    ((1 : ℚ) / 100 ≤ (100 : ℚ) ∧ (0 : ℚ) < 100) := by
  have hmem : (⟨1000, "ETH/USD", 100, SourceKind.Dex, 0, 0, false⟩ : PriceMsg) ∈
      gbmTrace sampleU fsqrtU fexpU engineU [⟨1000, 0, SourceKind.Dex, 0, false⟩] := by
    with_unfolding_all decide
  refine ⟨hmem, ?_⟩
  have h := (gbm_price_floor sampleU fsqrtU fexpU engineU 1000 0 SourceKind.Dex 0
    false [⟨1000, 0, SourceKind.Dex, 0, false⟩]).2 _ hmem
  exact h

/-- The tick generated inside one iteration of the Oracle ticker, before
the publication gate: the engine call of src/oracle_sim/main.cpp line 172
with the sampled jitter and computed staleness flag.  Named so the gate
theorems can refer to the generated price without repeating the term. -/
def oracle_gen {R : Type} (uint : Nat → Nat → R → Nat × R)
    (sample : R → ℚ × R) (fsqrt fexp : ℚ → ℚ) (cfg : OracleCfg)
    (st : OracleSimState R) (now ts : Nat) : PriceMsg :=
  (st.engine.next_tick sample fsqrt fexp ts st.seq SourceKind.Chainlink
    (sample_range uint
      (sample_range uint st.rng cfg.oracle_tick_ms_min cfg.oracle_tick_ms_max).2
      cfg.oracle_ws_jitter_min cfg.oracle_ws_jitter_max).1
    (decide (now - st.last_tick_time > cfg.oracle_stale_after_ms))).1

theorem oracle_step_gen {R : Type} (u01 : R → ℚ × R)
    (uint : Nat → Nat → R → Nat × R) (sample : R → ℚ × R)
    (fsqrt fexp : ℚ → ℚ) (cfg : OracleCfg) (st : OracleSimState R)
    (now ts : Nat) :
    (oracle_step u01 uint sample fsqrt fexp cfg st now ts).2.1 =
      oracle_gen uint sample fsqrt fexp cfg st now ts := by
  simp only [oracle_step, oracle_gen]
  split
  · rfl
  · split
    · rfl
    · split
      · rfl
      · rfl

/-- The gate disjunction of the claim: no prior published price, or the
truncated basis-point deviation at least the configured threshold, or the
elapsed monotonic time since the last publish decision at least the
heartbeat. -/
def oracleGateCond (cfg : OracleCfg) (pub : OraclePubState)
    (current_price : ℚ) (now : Nat) : Prop :=
  pub.last_published_price = none ∨
  (∃ last, pub.last_published_price = some last ∧
    cfg.oracle_deviation_bps ≤ deviationBps current_price last) ∨
  (∃ t, pub.last_publish_time = some t ∧ cfg.oracle_heartbeat_ms ≤ now - t)

/-- Concrete Oracle ticker state for witnesses: no prior publication. -/
def oracleSt0 : OracleSimState Unit :=
  ⟨(), 0, 0, engineU, ⟨none, none⟩, ⟨0, 0, 0, 0⟩, none⟩

/-- Concrete Oracle ticker state for witnesses: a prior publication at
price 100 and monotonic instant 5. -/
def oracleStPub : OracleSimState Unit :=
  ⟨(), 1, 5, engineU, ⟨some 100, some 5⟩, ⟨1, 1, 0, 0⟩, none⟩

/-- Concrete Oracle configuration whose fault pipeline drops every frame. -/
def cfgDropAll : OracleCfg := ⟨50, 50, 50, 1000000, 0, 0, 1, 0, 10000⟩

/-- Concrete Oracle configuration with no drops, a 50 bps deviation
threshold and a long heartbeat. -/
def cfgQuiet : OracleCfg := ⟨50, 50, 50, 1000000, 0, 0, 0, 0, 10000⟩

/-- C1 counterexample: with `oracle_p_drop = 1` and no prior publication,
all of the claim's gate conditions hold for the generated tick (no prior
published price), yet the tick is not broadcast — the drop decision of the
fault pipeline discards it after the gate.  So "broadcast iff gate
condition" is false as stated. -/
theorem oracle_gate_iff_counterexample :
    ¬ (((oracle_step u01U uintU sampleU fsqrtU fexpU cfgDropAll oracleSt0
          10 1000).2.2 ≠ []) ↔
        oracleGateCond cfgDropAll oracleSt0.pub
          (oracle_gen uintU sampleU fsqrtU fexpU cfgDropAll oracleSt0 10 1000).price
          10) := by
  intro h
  have hbs : (oracle_step u01U uintU sampleU fsqrtU fexpU cfgDropAll oracleSt0
      10 1000).2.2 = [] := by
    with_unfolding_all decide
  exact (h.mpr (Or.inl rfl)) hbs

/-- C1 amended: the gate decision `should_publish` is true exactly when one
of the claim's three conditions holds (no prior published price, truncated
deviation in bps at least the threshold, or elapsed time since the last
publish decision at least the heartbeat), and a broadcast tick implies the
gate condition; the converse fails because a gate-passing tick can still
be dropped by the fault pipeline. -/
theorem oracle_gate_only_if {R : Type} (u01 : R → ℚ × R)
    (uint : Nat → Nat → R → Nat × R) (sample : R → ℚ × R)
    (fsqrt fexp : ℚ → ℚ) (cfg : OracleCfg) (st : OracleSimState R)
    (now ts : Nat) (p : ℚ) :
    (should_publish cfg st.pub p now = true ↔
      oracleGateCond cfg st.pub p now) ∧
    ((oracle_step u01 uint sample fsqrt fexp cfg st now ts).2.2 ≠ [] →
      oracleGateCond cfg st.pub
        (oracle_gen uint sample fsqrt fexp cfg st now ts).price now) := by
  have hiff : ∀ q : ℚ, should_publish cfg st.pub q now = true ↔
      oracleGateCond cfg st.pub q now := by
    intro q
    rcases hp : st.pub.last_published_price with _ | last
    · simp [should_publish, oracleGateCond, hp]
    · rcases ht : st.pub.last_publish_time with _ | t
      · by_cases hdev : cfg.oracle_deviation_bps ≤ deviationBps q last
        · simp [should_publish, oracleGateCond, hp, ht, hdev]
        · simp [should_publish, oracleGateCond, hp, ht, hdev]
      · by_cases hdev : cfg.oracle_deviation_bps ≤ deviationBps q last
        · simp [should_publish, oracleGateCond, hp, ht, hdev]
        · simp [should_publish, oracleGateCond, hp, ht, hdev]
  refine ⟨hiff p, ?_⟩
  intro hbs
  by_cases hsp : should_publish cfg st.pub
      (oracle_gen uint sample fsqrt fexp cfg st now ts).price now = true
  · exact (hiff _).mp hsp
  · exfalso
    apply hbs
    have hsp' : should_publish cfg st.pub
        (oracle_gen uint sample fsqrt fexp cfg st now ts).price now = false := by
      cases h' : should_publish cfg st.pub
          (oracle_gen uint sample fsqrt fexp cfg st now ts).price now
      · rfl
      · exact absurd h' hsp
    simp only [oracle_gen] at hsp'
    simp [oracle_step, hsp']

/-- Witness for C1 amended: a no-drop configuration with no prior
publication broadcasts, and the gate condition holds for it. -/
theorem oracle_gate_only_if_witness :
    (should_publish cfgQuiet oracleSt0.pub 100 10 = true ↔
      oracleGateCond cfgQuiet oracleSt0.pub 100 10) ∧
    oracleGateCond cfgQuiet oracleSt0.pub
      (oracle_gen uintU sampleU fsqrtU fexpU cfgQuiet oracleSt0 10 1000).price 10 :=
  ⟨(oracle_gate_only_if u01U uintU sampleU fsqrtU fexpU cfgQuiet oracleSt0
      10 1000 100).1,
   (oracle_gate_only_if u01U uintU sampleU fsqrtU fexpU cfgQuiet oracleSt0
      10 1000 100).2 (by with_unfolding_all decide)⟩

/-- C5: when the Oracle publication gate rejects a generated tick, the
step leaves every metrics counter and the sequence number unchanged and
broadcasts nothing; `price_ticks_generated` is incremented exactly when
the gate passes (the tick reaches the broadcast stage of the pipeline). -/
theorem oracle_reject_frame {R : Type} (u01 : R → ℚ × R)
    (uint : Nat → Nat → R → Nat × R) (sample : R → ℚ × R)
    (fsqrt fexp : ℚ → ℚ) (cfg : OracleCfg) (st : OracleSimState R)
    (now ts : Nat) :
    (should_publish cfg st.pub
        (oracle_gen uint sample fsqrt fexp cfg st now ts).price now = false →
      (oracle_step u01 uint sample fsqrt fexp cfg st now ts).1.metrics = st.metrics ∧
      (oracle_step u01 uint sample fsqrt fexp cfg st now ts).1.seq = st.seq ∧
      (oracle_step u01 uint sample fsqrt fexp cfg st now ts).2.2 = []) ∧
    (oracle_step u01 uint sample fsqrt fexp cfg st now ts).1.metrics.price_ticks_generated =
      st.metrics.price_ticks_generated +
        (if should_publish cfg st.pub
            (oracle_gen uint sample fsqrt fexp cfg st now ts).price now = true
         then 1 else 0) := by
  constructor
  · intro h
    simp only [oracle_gen] at h
    simp [oracle_step, h]
  · cases hsp : should_publish cfg st.pub
        (oracle_gen uint sample fsqrt fexp cfg st now ts).price now with
    | false =>
      simp only [oracle_gen] at hsp
      simp [oracle_step, hsp]
    | true =>
      simp only [oracle_gen] at hsp
      simp only [oracle_step, hsp]
      simp only [Bool.true_eq_false, if_false]
      split
      · simp
      · split
        · simp
        · simp

/-- Witness for C5: a quiet configuration whose gate rejects (zero
deviation, heartbeat far away). -/
theorem oracle_reject_frame_witness :
    should_publish cfgQuiet oracleStPub.pub
      (oracle_gen uintU sampleU fsqrtU fexpU cfgQuiet oracleStPub 10 1000).price 10 = false ∧
    (oracle_step u01U uintU sampleU fsqrtU fexpU cfgQuiet oracleStPub 10 1000).1.metrics =
      oracleStPub.metrics ∧
    (oracle_step u01U uintU sampleU fsqrtU fexpU cfgQuiet oracleStPub 10 1000).1.seq =
      oracleStPub.seq ∧
    (oracle_step u01U uintU sampleU fsqrtU fexpU cfgQuiet oracleStPub 10 1000).2.2 = [] := by
  have hgate : should_publish cfgQuiet oracleStPub.pub
      (oracle_gen uintU sampleU fsqrtU fexpU cfgQuiet oracleStPub 10 1000).price 10 = false := by
    with_unfolding_all decide
  have h := (oracle_reject_frame u01U uintU sampleU fsqrtU fexpU cfgQuiet
    oracleStPub 10 1000).1 hgate
  exact ⟨hgate, h.1, h.2.1, h.2.2⟩

/-- C6: on every gate-passing tick the Oracle publication state is set to
that tick's price and the decision instant, in the drop branch of the
fault pipeline as well as in the broadcast branches. -/
theorem oracle_mark_published_on_intent {R : Type} (u01 : R → ℚ × R)
    (uint : Nat → Nat → R → Nat × R) (sample : R → ℚ × R)
    (fsqrt fexp : ℚ → ℚ) (cfg : OracleCfg) (st : OracleSimState R)
    (now ts : Nat)
    (h : should_publish cfg st.pub
      (oracle_gen uint sample fsqrt fexp cfg st now ts).price now = true) :
    (oracle_step u01 uint sample fsqrt fexp cfg st now ts).1.pub =
      mark_published (oracle_gen uint sample fsqrt fexp cfg st now ts).price now := by
  simp only [oracle_gen] at h ⊢
  simp only [oracle_step, h]
  simp only [Bool.true_eq_false, if_false]
  split
  · rfl
  · split
    · rfl
    · rfl

/-- Witness for C6: the drop-everything configuration still records the
publication intent. -/
theorem oracle_mark_published_on_intent_witness :
    should_publish cfgDropAll oracleSt0.pub
      (oracle_gen uintU sampleU fsqrtU fexpU cfgDropAll oracleSt0 10 1000).price 10 = true ∧
    (oracle_step u01U uintU sampleU fsqrtU fexpU cfgDropAll oracleSt0 10 1000).1.pub =
      mark_published
        (oracle_gen uintU sampleU fsqrtU fexpU cfgDropAll oracleSt0 10 1000).price 10 :=
  ⟨by with_unfolding_all decide,
   oracle_mark_published_on_intent u01U uintU sampleU fsqrtU fexpU cfgDropAll
     oracleSt0 10 1000 (by with_unfolding_all decide)⟩

theorem happens_one {R : Type} (u01 : R → ℚ × R) (rng : R) :
    happens u01 rng 1 = (true, rng) := by
  norm_num [happens]

/-- Concrete DEX ticker state for witnesses. -/
def dexSt0 : DexSimState Unit := ⟨(), 0, 0, engineU, ⟨0, 0, 0, 0⟩, none⟩

/-- Concrete DEX configuration that drops every frame. -/
def dexCfgDropAll : DexCfg := ⟨50, 50, 0, 0, 1, 0, false, 0, 0, 10000⟩

/-- Concrete DEX configuration with no faults. -/
def dexCfgClean : DexCfg := ⟨50, 50, 0, 0, 0, 0, false, 0, 0, 10000⟩

/-- Concrete Oracle configuration under which the gate rejects every tick
after the first: deviation threshold 10000 bps, heartbeat far away. -/
def cfgReject : OracleCfg := ⟨50, 50, 10000, 1000000000, 0, 0, 0, 0, 10000⟩

theorem dex_step_src_seq {R : Type} (u01 : R → ℚ × R)
    (uint : Nat → Nat → R → Nat × R) (sample : R → ℚ × R)
    (fsqrt fexp : ℚ → ℚ) (cfg : DexCfg) (st : DexSimState R) (now ts : Nat) :
    (dex_step u01 uint sample fsqrt fexp cfg st now ts).2.1.src_seq = st.seq ∧
    (dex_step u01 uint sample fsqrt fexp cfg st now ts).1.seq = st.seq + 1 := by
  simp only [dex_step, GbmPriceEngine.next_tick]
  constructor
  · simp only
      [apply_ite (fun x : DexSimState R × PriceMsg × List PriceMsg => x.2.1.src_seq)]
    simp [ite_self]
  · simp only
      [apply_ite (fun x : DexSimState R × PriceMsg × List PriceMsg => x.1.seq)]
    simp [ite_self]

theorem dex_run_seq_map {R : Type} (u01 : R → ℚ × R)
    (uint : Nat → Nat → R → Nat × R) (sample : R → ℚ × R)
    (fsqrt fexp : ℚ → ℚ) (cfg : DexCfg) (inputs : List (Nat × Nat)) :
    ∀ st : DexSimState R,
      ((dex_run u01 uint sample fsqrt fexp cfg st inputs).2.1).map
          PriceMsg.src_seq =
        List.range' st.seq inputs.length := by
  induction inputs with
  | nil =>
    intro st
    simp [dex_run]
  | cons c rest ih =>
    intro st
    obtain ⟨h1, h2⟩ := dex_step_src_seq u01 uint sample fsqrt fexp cfg st c.1 c.2
    simp only [dex_run, List.map_cons, List.length_cons, ih, h1, h2]
    rfl

/-- C7 counterexample: in the Oracle feed, `seq` is not incremented when
the publication gate rejects, so consecutive generated ticks can carry the
same `src_seq`.  With a 10000 bps deviation threshold, a far heartbeat and
a constant price, three ticks are generated with `src_seq` values
`[0, 1, 1]` — not strictly increasing over generated ticks in generation
order, contradicting the claim as stated. -/
theorem src_seq_counterexample :
    ((oracle_run u01U uintU sampleU fsqrtU fexpU cfgReject oracleSt0
        [(10, 1000), (20, 2000), (30, 3000)]).2.1).map PriceMsg.src_seq =
      [0, 1, 1] ∧
    ¬ List.Chain' (· < ·)
      (((oracle_run u01U uintU sampleU fsqrtU fexpU cfgReject oracleSt0
        [(10, 1000), (20, 2000), (30, 3000)]).2.1).map PriceMsg.src_seq) := by
  have hmap : ((oracle_run u01U uintU sampleU fsqrtU fexpU cfgReject oracleSt0
      [(10, 1000), (20, 2000), (30, 3000)]).2.1).map PriceMsg.src_seq =
      [0, 1, 1] := by
    with_unfolding_all decide
  refine ⟨hmap, ?_⟩
  rw [hmap]
  intro hc
  have h11 := (List.chain'_cons.mp (List.chain'_cons.mp hc).2).1
  exact absurd h11 (lt_irrefl 1)

/-- C7 amended: in the DEX feed `src_seq` is assigned at generation and
incremented once per generated tick, so the generated ticks of a run carry
the consecutive values `seq0, seq0+1, ...`; in the Oracle feed `seq` is
incremented once per gate-passing tick and left unchanged on gate
rejection (the next generated tick reuses the pending value); in both
feeds every frame broadcast in a step — the duplicate included — carries
the `src_seq` of that step's generated tick, and a dropped tick consumes
its `src_seq` without broadcasting, leaving a gap in the published
sequence. -/
theorem src_seq_amended {R : Type} (u01 : R → ℚ × R)
    (uint : Nat → Nat → R → Nat × R) (sample : R → ℚ × R)
    (fsqrt fexp : ℚ → ℚ) (dcfg : DexCfg) (ocfg : OracleCfg)
    (dst : DexSimState R) (ost : OracleSimState R) (now ts : Nat)
    (inputs : List (Nat × Nat)) :
    ((dex_step u01 uint sample fsqrt fexp dcfg dst now ts).2.1.src_seq = dst.seq ∧
      (dex_step u01 uint sample fsqrt fexp dcfg dst now ts).1.seq = dst.seq + 1) ∧
    (∀ b ∈ (dex_step u01 uint sample fsqrt fexp dcfg dst now ts).2.2,
      b.src_seq = dst.seq) ∧
    (((dex_run u01 uint sample fsqrt fexp dcfg dst inputs).2.1).map
        PriceMsg.src_seq = List.range' dst.seq inputs.length) ∧
    ((oracle_step u01 uint sample fsqrt fexp ocfg ost now ts).2.1.src_seq = ost.seq) ∧
    (should_publish ocfg ost.pub
        (oracle_gen uint sample fsqrt fexp ocfg ost now ts).price now = true →
      (oracle_step u01 uint sample fsqrt fexp ocfg ost now ts).1.seq = ost.seq + 1) ∧
    (should_publish ocfg ost.pub
        (oracle_gen uint sample fsqrt fexp ocfg ost now ts).price now = false →
      (oracle_step u01 uint sample fsqrt fexp ocfg ost now ts).1.seq = ost.seq) ∧
    (∀ b ∈ (oracle_step u01 uint sample fsqrt fexp ocfg ost now ts).2.2,
      b.src_seq = ost.seq) := by
  refine ⟨dex_step_src_seq u01 uint sample fsqrt fexp dcfg dst now ts,
    ?_, dex_run_seq_map u01 uint sample fsqrt fexp dcfg inputs dst, ?_, ?_, ?_, ?_⟩
  · intro b hb
    simp only [dex_step, GbmPriceEngine.next_tick] at hb
    split_ifs at hb <;> simp_all
  · rw [oracle_step_gen]
    simp [oracle_gen, GbmPriceEngine.next_tick]
  · intro h
    simp only [oracle_gen] at h
    simp only [oracle_step, h]
    simp only [Bool.true_eq_false, if_false]
    split
    · rfl
    · split
      · rfl
      · rfl
  · intro h
    simp only [oracle_gen] at h
    simp [oracle_step, h]
  · intro b hb
    simp only [oracle_step, GbmPriceEngine.next_tick] at hb
    split_ifs at hb <;> simp_all

/-- Witness for C7 amended, discharging the gate-true and gate-false
hypotheses and the broadcast-membership hypothesis at concrete inputs. -/
theorem src_seq_amended_witness :
    (oracle_step u01U uintU sampleU fsqrtU fexpU cfgQuiet oracleSt0 10 1000).1.seq =
      oracleSt0.seq + 1 ∧
    (oracle_step u01U uintU sampleU fsqrtU fexpU cfgQuiet oracleStPub 10 1000).1.seq =
      oracleStPub.seq ∧
    (⟨1000, "ETH/USD", 100, SourceKind.Dex, 0, 0, false⟩ : PriceMsg).src_seq =
      dexSt0.seq :=
  ⟨(src_seq_amended u01U uintU sampleU fsqrtU fexpU dexCfgClean cfgQuiet dexSt0
      oracleSt0 10 1000 []).2.2.2.2.1 (by with_unfolding_all decide),
   (src_seq_amended u01U uintU sampleU fsqrtU fexpU dexCfgClean cfgQuiet dexSt0
      oracleStPub 10 1000 []).2.2.2.2.2.1 (by with_unfolding_all decide),
   (src_seq_amended u01U uintU sampleU fsqrtU fexpU dexCfgClean cfgQuiet dexSt0
      oracleSt0 10 1000 []).2.1
     (⟨1000, "ETH/USD", 100, SourceKind.Dex, 0, 0, false⟩ : PriceMsg)
     (by with_unfolding_all decide)⟩

theorem dex_step_drop_all {R : Type} (u01 : R → ℚ × R)
    (uint : Nat → Nat → R → Nat × R) (sample : R → ℚ × R)
    (fsqrt fexp : ℚ → ℚ) (cfg : DexCfg) (hdrop : cfg.dex_p_drop = 1)
    (st : DexSimState R) (now ts : Nat) :
    (dex_step u01 uint sample fsqrt fexp cfg st now ts).1.metrics =
      { st.metrics with
        price_ticks_generated := st.metrics.price_ticks_generated + 1
        ws_frames_dropped := st.metrics.ws_frames_dropped + 1 } ∧
    (dex_step u01 uint sample fsqrt fexp cfg st now ts).2.2 = [] ∧
    (dex_step u01 uint sample fsqrt fexp cfg st now ts).1.last_tick_time = now := by
  simp only [dex_step, hdrop, happens_one]
  simp

/-- The inter-tick, burst and latency draws of one DEX ticker iteration
(src/dex_sim/main.cpp lines 100 to 119): the pair of the sampled
`delay_ms` and the generator state afterwards, which feeds the drop
decision.  Named so the accounting theorem can refer to the drop and
duplicate decisions without repeating the term. -/
def dex_pre {R : Type} (u01 : R → ℚ × R) (uint : Nat → Nat → R → Nat × R)
    (cfg : DexCfg) (st : DexSimState R) : Nat × R :=
  let rTick := sample_range uint st.rng cfg.dex_tick_ms_min cfg.dex_tick_ms_max
  let rBurst :=
    if cfg.dex_burst_mode then
      let coin := happens u01 rTick.2 (1 / 2)
      (if coin.1 then cppMinNat rTick.1 cfg.dex_burst_on_ms
       else cppMaxNat rTick.1 cfg.dex_burst_off_ms, coin.2)
    else rTick
  sample_range uint rBurst.2 cfg.dex_latency_ms_min cfg.dex_latency_ms_max

/-- The tick generated inside one DEX ticker iteration
(src/dex_sim/main.cpp line 126). -/
def dex_gen {R : Type} (u01 : R → ℚ × R) (uint : Nat → Nat → R → Nat × R)
    (sample : R → ℚ × R) (fsqrt fexp : ℚ → ℚ) (cfg : DexCfg)
    (st : DexSimState R) (now ts : Nat) : PriceMsg :=
  (st.engine.next_tick sample fsqrt fexp ts st.seq SourceKind.Dex
    (dex_pre u01 uint cfg st).1
    (decide (now - st.last_tick_time > cfg.dex_stale_after_ms))).1

/-- The drop decision `happens(rng, p_drop)` of one DEX ticker iteration
(src/dex_sim/main.cpp line 130). -/
def dex_drop_decision {R : Type} (u01 : R → ℚ × R)
    (uint : Nat → Nat → R → Nat × R) (cfg : DexCfg) (st : DexSimState R) :
    Bool :=
  (happens u01 (dex_pre u01 uint cfg st).2 cfg.dex_p_drop).1

/-- The duplicate decision `happens(rng, p_dup)` of one DEX ticker
iteration (src/dex_sim/main.cpp line 141), drawn after the drop decision. -/
def dex_dup_decision {R : Type} (u01 : R → ℚ × R)
    (uint : Nat → Nat → R → Nat × R) (cfg : DexCfg) (st : DexSimState R) :
    Bool :=
  (happens u01 (happens u01 (dex_pre u01 uint cfg st).2 cfg.dex_p_drop).2
    cfg.dex_p_dup).1

/-- Concrete DEX configuration that duplicates every frame. -/
def dexCfgDupAll : DexCfg := ⟨50, 50, 0, 0, 0, 1, false, 0, 0, 10000⟩

/-- C8: in the DEX ticker every generated tick increments
`price_ticks_generated` and advances the last-tick monotonic instant;
when the drop decision fires the tick increments `ws_frames_dropped` and
is not broadcast; otherwise it is broadcast exactly once, incrementing
`ws_frames_sent`, and when the duplicate decision additionally fires it
is broadcast a second time, incrementing `ws_frames_duplicated`.  Hence
with `p_drop = 1` and `p_dup = 0` the drop fires on every tick without
drawing from the generator, and after N tick periods
`price_ticks_generated` and `ws_frames_dropped` both grow by N while
`ws_frames_sent` and `ws_frames_duplicated` are unchanged and nothing is
broadcast. -/
theorem dex_drop_accounting {R : Type} (u01 : R → ℚ × R)
    (uint : Nat → Nat → R → Nat × R) (sample : R → ℚ × R)
    (fsqrt fexp : ℚ → ℚ) (cfg : DexCfg) (st : DexSimState R)
    (now ts : Nat) (inputs : List (Nat × Nat)) :
    (dex_step u01 uint sample fsqrt fexp cfg st now ts).1.metrics.price_ticks_generated =
      st.metrics.price_ticks_generated + 1 ∧
    (dex_step u01 uint sample fsqrt fexp cfg st now ts).1.last_tick_time = now ∧
    (dex_drop_decision u01 uint cfg st = true →
      (dex_step u01 uint sample fsqrt fexp cfg st now ts).1.metrics =
        { st.metrics with
          price_ticks_generated := st.metrics.price_ticks_generated + 1
          ws_frames_dropped := st.metrics.ws_frames_dropped + 1 } ∧
      (dex_step u01 uint sample fsqrt fexp cfg st now ts).2.2 = []) ∧
    (dex_drop_decision u01 uint cfg st = false →
      dex_dup_decision u01 uint cfg st = false →
      (dex_step u01 uint sample fsqrt fexp cfg st now ts).1.metrics =
        { st.metrics with
          price_ticks_generated := st.metrics.price_ticks_generated + 1
          ws_frames_sent := st.metrics.ws_frames_sent + 1 } ∧
      (dex_step u01 uint sample fsqrt fexp cfg st now ts).2.2 =
        [dex_gen u01 uint sample fsqrt fexp cfg st now ts]) ∧
    (dex_drop_decision u01 uint cfg st = false →
      dex_dup_decision u01 uint cfg st = true →
      (dex_step u01 uint sample fsqrt fexp cfg st now ts).1.metrics =
        { st.metrics with
          price_ticks_generated := st.metrics.price_ticks_generated + 1
          ws_frames_sent := st.metrics.ws_frames_sent + 1
          ws_frames_duplicated := st.metrics.ws_frames_duplicated + 1 } ∧
      (dex_step u01 uint sample fsqrt fexp cfg st now ts).2.2 =
        [dex_gen u01 uint sample fsqrt fexp cfg st now ts,
         dex_gen u01 uint sample fsqrt fexp cfg st now ts]) ∧
    (cfg.dex_p_drop = 1 → cfg.dex_p_dup = 0 →
      (dex_run u01 uint sample fsqrt fexp cfg st inputs).1.metrics.price_ticks_generated =
        st.metrics.price_ticks_generated + inputs.length ∧
      (dex_run u01 uint sample fsqrt fexp cfg st inputs).1.metrics.ws_frames_dropped =
        st.metrics.ws_frames_dropped + inputs.length ∧
      (dex_run u01 uint sample fsqrt fexp cfg st inputs).1.metrics.ws_frames_sent =
        st.metrics.ws_frames_sent ∧
      (dex_run u01 uint sample fsqrt fexp cfg st inputs).1.metrics.ws_frames_duplicated =
        st.metrics.ws_frames_duplicated ∧
      (dex_run u01 uint sample fsqrt fexp cfg st inputs).2.2 = []) := by
  refine ⟨?_, ?_, ?_, ?_, ?_, ?_⟩
  · simp only [dex_step]
    simp only
      [apply_ite
        (fun x : DexSimState R × PriceMsg × List PriceMsg =>
          x.1.metrics.price_ticks_generated)]
    simp [ite_self]
  · simp only [dex_step]
    simp only
      [apply_ite
        (fun x : DexSimState R × PriceMsg × List PriceMsg => x.1.last_tick_time)]
    simp [ite_self]
  · intro h
    simp only [dex_drop_decision, dex_pre] at h
    simp only [dex_step, h]
    simp
  · intro h1 h2
    simp only [dex_drop_decision, dex_dup_decision, dex_pre] at h1 h2
    simp only [dex_step, h1, h2]
    simp [dex_gen, dex_pre]
  · intro h1 h2
    simp only [dex_drop_decision, dex_dup_decision, dex_pre] at h1 h2
    simp only [dex_step, h1, h2]
    simp [dex_gen, dex_pre]
  · intro hdrop hdup
    have hrun : ∀ (l : List (Nat × Nat)) (st' : DexSimState R),
        (dex_run u01 uint sample fsqrt fexp cfg st' l).1.metrics =
          { st'.metrics with
            price_ticks_generated := st'.metrics.price_ticks_generated + l.length
            ws_frames_dropped := st'.metrics.ws_frames_dropped + l.length } ∧
        (dex_run u01 uint sample fsqrt fexp cfg st' l).2.2 = [] := by
      intro l
      induction l with
      | nil =>
        intro st'
        simp [dex_run]
      | cons c rest ih =>
        intro st'
        obtain ⟨h1, h2, _⟩ :=
          dex_step_drop_all u01 uint sample fsqrt fexp cfg hdrop st' c.1 c.2
        constructor
        · have hm := (ih ((dex_step u01 uint sample fsqrt fexp cfg st' c.1 c.2).1)).1
          simp only [dex_run, hm, h1, List.length_cons]
          simp [Metrics.mk.injEq]
          omega
        · have hbs := (ih ((dex_step u01 uint sample fsqrt fexp cfg st' c.1 c.2).1)).2
          simp only [dex_run, List.append_eq_nil]
          exact ⟨h2, hbs⟩
    obtain ⟨hm, hbs⟩ := hrun inputs st
    rw [hm]
    exact ⟨rfl, rfl, rfl, rfl, hbs⟩

/-- Witness for C8, discharging the drop, broadcast-once, duplicate and
drop-everything scenarios at concrete inputs. -/
theorem dex_drop_accounting_witness :
    (dex_step u01U uintU sampleU fsqrtU fexpU dexCfgDropAll dexSt0 10 1000).2.2 = [] ∧
    (dex_step u01U uintU sampleU fsqrtU fexpU dexCfgClean dexSt0 10 1000).2.2 =
      [dex_gen u01U uintU sampleU fsqrtU fexpU dexCfgClean dexSt0 10 1000] ∧
    (dex_step u01U uintU sampleU fsqrtU fexpU dexCfgDupAll dexSt0 10 1000).2.2 =
      [dex_gen u01U uintU sampleU fsqrtU fexpU dexCfgDupAll dexSt0 10 1000,
       dex_gen u01U uintU sampleU fsqrtU fexpU dexCfgDupAll dexSt0 10 1000] ∧
    (dex_run u01U uintU sampleU fsqrtU fexpU dexCfgDropAll dexSt0
        [(10, 1000), (20, 2000), (30, 3000)]).1.metrics.price_ticks_generated =
      dexSt0.metrics.price_ticks_generated + 3 ∧
    (dex_run u01U uintU sampleU fsqrtU fexpU dexCfgDropAll dexSt0
        [(10, 1000), (20, 2000), (30, 3000)]).1.metrics.ws_frames_sent =
      dexSt0.metrics.ws_frames_sent :=
  ⟨((dex_drop_accounting u01U uintU sampleU fsqrtU fexpU dexCfgDropAll dexSt0
      10 1000 []).2.2.1 (by with_unfolding_all decide)).2,
   ((dex_drop_accounting u01U uintU sampleU fsqrtU fexpU dexCfgClean dexSt0
      10 1000 []).2.2.2.1 (by with_unfolding_all decide)
      (by with_unfolding_all decide)).2,
   ((dex_drop_accounting u01U uintU sampleU fsqrtU fexpU dexCfgDupAll dexSt0
      10 1000 []).2.2.2.2.1 (by with_unfolding_all decide)
      (by with_unfolding_all decide)).2,
   ((dex_drop_accounting u01U uintU sampleU fsqrtU fexpU dexCfgDropAll dexSt0
      10 1000 [(10, 1000), (20, 2000), (30, 3000)]).2.2.2.2.2 rfl rfl).1,
   ((dex_drop_accounting u01U uintU sampleU fsqrtU fexpU dexCfgDropAll dexSt0
      10 1000 [(10, 1000), (20, 2000), (30, 3000)]).2.2.2.2.2 rfl rfl).2.2.1⟩

/-- C9 counterexample: the `not_found` lambda of both `handle_http_request`
functions does not set `Access-Control-Allow-Origin`, so the 404 response
for an unknown path carries no CORS header — the claim that every HTTP
response carries it is false at this concrete request. -/
theorem cors_counterexample :
    (oracle_handle_http_request (fun _ _ => "") ⟨0, 0, 0, 0⟩ none 0 "/nope").cors =
      false ∧
    (dex_handle_http_request (fun _ _ => "") (fun _ => none) ⟨0, 0, 0, 0⟩ none 0
        "/nope").cors = false ∧
    (oracle_handle_http_request (fun _ _ => "") ⟨0, 0, 0, 0⟩ none 0 "/nope").status =
      404 := by
  refine ⟨?_, ?_, ?_⟩ <;> with_unfolding_all decide

/-- C9 amended: in both simulators every 200 response carries
`Access-Control-Allow-Origin: *` (the response has the header exactly when
its status is 200), and a request for an unknown path returns status 404
with content type `text/plain` and body `"Not found: <target>"` — but
without the CORS header. -/
theorem http_cors_amended (dump : Option PriceMsg → Nat → String)
    (static_files : String → Option String) (m : Metrics)
    (lp : Option PriceMsg) (now : Nat) (target : String) :
    ((oracle_handle_http_request dump m lp now target).cors = true ↔
      (oracle_handle_http_request dump m lp now target).status = 200) ∧
    ((dex_handle_http_request dump static_files m lp now target).cors = true ↔
      (dex_handle_http_request dump static_files m lp now target).status = 200) ∧
    (target ≠ "/healthz" → target ≠ "/metrics" → target ≠ "/oracle/snapshot" →
      oracle_handle_http_request dump m lp now target = not_found_resp target) ∧
    (target ≠ "/healthz" → target ≠ "/metrics" → target ≠ "/prices/snapshot" →
      target ≠ "/" → target ≠ "/index.html" → target ≠ "/dual.html" →
      target ≠ "/debug.html" →
      dex_handle_http_request dump static_files m lp now target =
        not_found_resp target) ∧
    (not_found_resp target).status = 404 ∧
    (not_found_resp target).content_type = "text/plain" ∧
    (not_found_resp target).body = "Not found: " ++ target ∧
    (not_found_resp target).cors = false := by
  refine ⟨?_, ?_, ?_, ?_, rfl, rfl, rfl, rfl⟩
  · by_cases h1 : target = "/healthz"
    · simp [oracle_handle_http_request, h1, ok_text_resp]
    · by_cases h2 : target = "/metrics"
      · simp [oracle_handle_http_request, h1, h2, ok_text_resp]
      · by_cases h3 : target = "/oracle/snapshot"
        · simp [oracle_handle_http_request, h1, h2, h3, ok_json_resp]
        · simp [oracle_handle_http_request, h1, h2, h3, not_found_resp]
  · by_cases h1 : target = "/healthz"
    · simp [dex_handle_http_request, h1, ok_text_resp]
    · by_cases h2 : target = "/metrics"
      · simp [dex_handle_http_request, h1, h2, ok_text_resp]
      · by_cases h3 : target = "/prices/snapshot"
        · simp [dex_handle_http_request, h1, h2, h3, ok_json_resp]
        · simp only [dex_handle_http_request, h1, h2, h3, if_false]
          rcases hs : (if target = "/" || target = "/index.html" then
              static_files "index.html"
            else if target = "/dual.html" then static_files "dual.html"
            else if target = "/debug.html" then static_files "debug.html"
            else none) with _ | content
          · simp [hs, not_found_resp]
          · simp [hs, ok_html_resp]
  · intro h1 h2 h3
    simp [oracle_handle_http_request, h1, h2, h3]
  · intro h1 h2 h3 h4 h5 h6 h7
    simp [dex_handle_http_request, h1, h2, h3, h4, h5, h6, h7]

/-- Witness for C9 amended at a concrete unknown path. -/
theorem http_cors_amended_witness :
    oracle_handle_http_request (fun _ _ => "") ⟨0, 0, 0, 0⟩ none 0 "/nope" =
      not_found_resp "/nope" ∧
    dex_handle_http_request (fun _ _ => "") (fun _ => none) ⟨0, 0, 0, 0⟩ none 0
        "/nope" = not_found_resp "/nope" ∧
    ((oracle_handle_http_request (fun _ _ => "") ⟨0, 0, 0, 0⟩ none 0 "/healthz").cors =
        true ↔
      (oracle_handle_http_request (fun _ _ => "") ⟨0, 0, 0, 0⟩ none 0 "/healthz").status =
        200) := by
  have h := http_cors_amended (fun _ _ => "") (fun _ => none) ⟨0, 0, 0, 0⟩ none 0 "/nope"
  refine ⟨h.2.2.1 (by decide) (by decide) (by decide),
    h.2.2.2.1 (by decide) (by decide) (by decide) (by decide) (by decide)
      (by decide) (by decide),
    (http_cors_amended (fun _ _ => "") (fun _ => none) ⟨0, 0, 0, 0⟩ none 0
      "/healthz").1⟩
